import Mathlib

/-!
# A shallow embedding of `pingdom_pause.py`

The program pauses or resumes Pingdom checks whose names contain one of the
given substrings.  Its observable behaviour is a function of the parsed
command line, the token environment variable, and the two HTTP responses
(the GET that fetches the checks and the PUT that mutates them).  We embed
that function below (`runMain`, together with the helpers it calls, each a
direct translation of the corresponding Python function) and prove the
specification's testable properties about it.

Modelling conventions:
* a JSON check object is a `Check`: `id` is `none` when the `"id"` key is
  absent, and `name` distinguishes an absent key from an explicit `null`
  because the source reads it with both `c.get("name") or ""` (line 47)
  and `c.get("name", default)` (line 120), which differ on those two cases;
* Python's `str.lower` is `pyLower`, a per-character lowercase map;
* Python's substring test `p in name` is list containment of the character
  list `p.data` inside `name.data` as a contiguous segment (`<:+:`);
* `sys.exit(message)` and an uncaught `requests.HTTPError` both terminate
  the process with a non-zero code and a single diagnostic; both are
  modelled by `Outcome.errExit` carrying the diagnostic text (for the
  uncaught error, the `HTTPError` message that `raise_for_status` builds);
* every network request the run issues is recorded, in order, in the
  `List NetCall` component of the result.
-/

namespace PingdomPause

/-- The value of a JSON string field that may be absent or `null`. -/
inductive JsonName where
  | absent
  | null
  | str (s : String)
deriving DecidableEq, Repr

/-- One element of the `"checks"` array of the GET response.  `id = none`
means the `"id"` key is absent. -/
structure Check where
  id : Option Int
  name : JsonName
deriving DecidableEq, Repr

/-- `(c.get("name") or "")` of line 47 and line 111: absent, `null` and the
empty string all collapse to the empty string. -/
def nameOrEmpty : JsonName → String
  | .str s => s
  | _ => ""

/-- Python's `str.lower`, as a per-character lowercase map. -/
def pyLower (s : String) : String := ⟨s.data.map Char.toLower⟩

/-- Python's substring containment `pat in hay`. -/
def substrB (pat hay : String) : Bool := decide (pat.data <:+: hay.data)

/-- Lines 43-50, `filter_checks`: lowercase the patterns once, lowercase each
check's (defaulted) name, keep the checks whose name contains a pattern. -/
def filter_checks (checks : List Check) (patterns : List String) : List Check :=
  let pats := patterns.map pyLower
  checks.filter fun c => pats.any fun p => substrB p (pyLower (nameOrEmpty c.name))

/-- Lines 109-113 of `main`: the case-sensitive list comprehension, or
`filter_checks`, depending on the flag. -/
def selectMatched (caseSensitive : Bool) (checks : List Check) (patterns : List String) :
    List Check :=
  if caseSensitive then
    checks.filter fun c => patterns.any fun p => substrB p (nameOrEmpty c.name)
  else
    filter_checks checks patterns

/-- Line 119: `[int(c["id"]) for c in matched if "id" in c]`. -/
def matchedIds (matched : List Check) : List Int :=
  matched.filterMap Check.id

/-- Line 120's name for one check: `c.get("name", f"id:{c.get('id')}")`,
rendered the way the report prints it (Python prints `None` as `"None"`). -/
def displayName (c : Check) : String :=
  match c.name with
  | .str s => s
  | .null => "None"
  | .absent => "id:" ++ (match c.id with | some i => toString i | none => "None")

/-- Line 120: `matched_names`, as the strings the report prints. -/
def matchedNames (matched : List Check) : List String :=
  matched.map displayName

/-- Line 63: `",".join(str(i) for i in check_ids)`. -/
def joinComma (ids : List Int) : String :=
  String.intercalate "," (ids.map toString)

/-- Lines 59-63 of `bulk_pause_or_resume`: the form body, in insertion
order; `checkids` is added only when the id list is non-empty. -/
def buildPayload (check_ids : List Int) (pause : Bool) : List (String × String) :=
  [("paused", if pause then "true" else "false")] ++
    (if check_ids = [] then [] else [("checkids", joinComma check_ids)])

/-- Python `dict` access on the form body, for stating what the request
carries. -/
def lookupField (k : String) : List (String × String) → Option String
  | [] => none
  | (k₁, v) :: rest => if k₁ = k then some v else lookupField k rest

/-- The two subcommands. -/
inductive Action where
  | pause
  | resume
deriving DecidableEq, Repr

/-- Line 131: `args.action == "pause"`. -/
def pauseFlag : Action → Bool
  | .pause => true
  | .resume => false

/-- The parsed command line (lines 77-90). -/
structure Args where
  action : Action
  patterns : List String
  tokenEnv : String
  dryRun : Bool
  caseSensitive : Bool
deriving DecidableEq, Repr

/-- The GET response: status, reason phrase, the parsed `"checks"` array
(`data.get("checks", [])` of line 40), and the raw body text. -/
structure FetchResp where
  status : Nat
  reason : String
  checks : List Check
  body : String
deriving DecidableEq, Repr

/-- The PUT response: status, reason phrase and body text. -/
structure WriteResp where
  status : Nat
  reason : String
  body : String
deriving DecidableEq, Repr

/-- A network request the run issued. -/
inductive NetCall where
  | getChecks
  | putChecks (payload : List (String × String))
deriving DecidableEq, Repr

/-- How a run ends.  `errExit` is a non-zero exit with one diagnostic
(`sys.exit(msg)` or an uncaught `HTTPError`); the two success outcomes carry
the count the report prints (`len(matched_ids)`) and the `(name, id)` pairs
of the `zip` on lines 126 and 137. -/
inductive Outcome where
  | errExit (diag : String)
  | dryRunOk (count : Nat) (pairs : List (String × Int))
  | successOk (count : Nat) (pairs : List (String × Int))
deriving DecidableEq, Repr

/-- Line 93's diagnostic. -/
def noPatternsMsg : String :=
  "No patterns provided. Pass one or more strings to match (e.g., `pause api checkout`)."

/-- Line 29's diagnostic. -/
def missingTokenMsg (envName : String) : String :=
  "ERROR: Missing API token. Set " ++ envName ++ "=<your-token> in the environment."

/-- Lines 36 and 66. -/
def unauthorizedMsg : String :=
  "ERROR: Unauthorized. Check your API token and account permissions."

/-- Line 68. -/
def endpointNotFoundMsg : String :=
  "ERROR: Endpoint not found. Verify API base URL and version."

/-- Line 116. -/
def noMatchesMsg : String :=
  "No checks matched the provided patterns. Nothing to do."

/-- `BASE_URL` plus `/checks` (lines 23, 33, 58). -/
def checksUrl : String := "https://api.pingdom.com/api/3.1/checks"

/-- The message of the `HTTPError` that `Response.raise_for_status` raises
for a status in `[400, 600)`. -/
def httpErrorMsg (status : Nat) (reason url : String) : String :=
  toString status ++
    (if status < 500 then " Client Error: " else " Server Error: ") ++
    reason ++ " for url: " ++ url

/-- Line 73's diagnostic: the stripped body, or the `HTTPError` text when
the stripped body is empty (`msg or e`). -/
def writeErrDiagnostic (status : Nat) (body reason url : String) : String :=
  "ERROR: API request failed (" ++ toString status ++ "). " ++
    (if body.trim = "" then httpErrorMsg status reason url else body.trim)

/-- The match result of a run (lines 109-113). -/
def runMatched (args : Args) (fresp : FetchResp) : List Check :=
  selectMatched args.caseSensitive fresp.checks args.patterns

/-- The id list of a run (line 119). -/
def runIds (args : Args) (fresp : FetchResp) : List Int :=
  matchedIds (runMatched args fresp)

/-- The printed names of a run (line 120). -/
def runNames (args : Args) (fresp : FetchResp) : List String :=
  matchedNames (runMatched args fresp)

/-- The `(name, id)` pairs the report prints (lines 126, 137). -/
def runPairs (args : Args) (fresp : FetchResp) : List (String × Int) :=
  (runNames args fresp).zip (runIds args fresp)

/-- The form body of the PUT a run would issue (lines 59-63, 131-132). -/
def runPayload (args : Args) (fresp : FetchResp) : List (String × String) :=
  buildPayload (runIds args fresp) (pauseFlag args.action)

/-- Lines 90-138 of `main`, with `fetch_all_checks` and
`bulk_pause_or_resume` inlined at their call sites: the outcome of the run
and the network requests it issued, in order.  `envVal` is the value of the
token environment variable (`none` when unset); the branch order follows
the source: empty patterns (92), missing token (26-30), fetch 401 (35),
fetch `raise_for_status` (37), empty match (115), dry run (123), write 401
(65), write 404 (67), write `raise_for_status` (69-73), success (134-138). -/
def runMain (args : Args) (envVal : Option String) (fresp : FetchResp) (wresp : WriteResp) :
    Outcome × List NetCall :=
  if args.patterns = [] then
    (.errExit noPatternsMsg, [])
  else if envVal.getD "" = "" then
    (.errExit (missingTokenMsg args.tokenEnv), [])
  else if fresp.status = 401 then
    (.errExit unauthorizedMsg, [NetCall.getChecks])
  else if 400 ≤ fresp.status ∧ fresp.status < 600 then
    (.errExit (httpErrorMsg fresp.status fresp.reason checksUrl), [NetCall.getChecks])
  else if runMatched args fresp = [] then
    (.errExit noMatchesMsg, [NetCall.getChecks])
  else if args.dryRun then
    (.dryRunOk (runIds args fresp).length (runPairs args fresp), [NetCall.getChecks])
  else if wresp.status = 401 then
    (.errExit unauthorizedMsg,
      [NetCall.getChecks, NetCall.putChecks (runPayload args fresp)])
  else if wresp.status = 404 then
    (.errExit endpointNotFoundMsg,
      [NetCall.getChecks, NetCall.putChecks (runPayload args fresp)])
  else if 400 ≤ wresp.status ∧ wresp.status < 600 then
    (.errExit (writeErrDiagnostic wresp.status wresp.body wresp.reason checksUrl),
      [NetCall.getChecks, NetCall.putChecks (runPayload args fresp)])
  else
    (.successOk (runIds args fresp).length (runPairs args fresp),
      [NetCall.getChecks, NetCall.putChecks (runPayload args fresp)])

/-!
## Specification-side definitions

These restate, in the specification's own words, what the matcher and the
write request are supposed to produce; the theorems below compare them with
the source translations above.
-/

/-- Written from the spec: `p` is a substring of the name, compared
case-sensitively, or with both operands lowercased otherwise. -/
def specSubstr (caseSensitive : Bool) (p n : String) : Prop :=
  match caseSensitive with
  | true => p.data <:+: n.data
  | false => (pyLower p).data <:+: (pyLower n).data

instance specSubstrDec (cs : Bool) (p n : String) : Decidable (specSubstr cs p n) :=
  match cs with
  | true => (inferInstance : Decidable (p.data <:+: n.data))
  | false => (inferInstance : Decidable ((pyLower p).data <:+: (pyLower n).data))

/-- Written from the spec: a check is included iff at least one pattern is a
substring of its name under the configured case rule. -/
def specMatchesName (caseSensitive : Bool) (patterns : List String) (n : String) : Prop :=
  ∃ p ∈ patterns, specSubstr caseSensitive p n

instance specMatchesNameDec (cs : Bool) (patterns : List String) (n : String) :
    Decidable (specMatchesName cs patterns n) :=
  inferInstanceAs (Decidable (∃ p ∈ patterns, specSubstr cs p n))

/-- Written from the spec: the comma-joined decimal encoding of the ids, in
order, duplicates kept. -/
def specCommaJoin : List Int → String
  | [] => ""
  | [i] => toString i
  | i :: rest => toString i ++ "," ++ specCommaJoin rest

/-- Written from the spec: the ids of exactly those matched checks that
possess an `"id"` key, in match order. -/
def specSentIds (matched : List Check) : List Int :=
  (matched.filter fun c => c.id.isSome).map fun c => c.id.getD 0

/-!
## Helper lemmas
-/

theorem bool_eq_of_iff {a b : Bool} (h : a = true ↔ b = true) : a = b := by
  cases a <;> cases b <;> simp_all

/-- The single inclusion test `selectMatched` applies to a (defaulted)
name, as one function of the case flag. -/
def includedB (caseSensitive : Bool) (patterns : List String) (n : String) : Bool :=
  if caseSensitive then
    patterns.any fun p => substrB p n
  else
    (patterns.map pyLower).any fun p => substrB p (pyLower n)

theorem selectMatched_eq_filter (cs : Bool) (checks : List Check) (patterns : List String) :
    selectMatched cs checks patterns =
      checks.filter fun c => includedB cs patterns (nameOrEmpty c.name) := by
  cases cs <;> rfl

theorem includedB_eq_decide (cs : Bool) (patterns : List String) (n : String) :
    includedB cs patterns n = decide (specMatchesName cs patterns n) := by
  apply bool_eq_of_iff
  cases cs with
  | true =>
    simp [includedB, substrB, specMatchesName, specSubstr, List.any_eq_true]
  | false =>
    simp [includedB, substrB, specMatchesName, specSubstr, List.any_eq_true,
      List.any_map, Function.comp]

/-!
## The claims
-/

/-- Claim C1: for every check list and non-empty pattern list, the match
result is exactly the filter of the fetched list by "some pattern is a
substring of the name, both sides lowercased unless case-sensitive mode is
set", and it is a sublist of the input — order preserved, nothing
deduplicated, nothing sorted. -/
theorem matcher_filters_by_substring (checks : List Check) (patterns : List String)
    (cs : Bool) (hp : patterns ≠ []) :
    selectMatched cs checks patterns =
        checks.filter (fun c => decide (specMatchesName cs patterns (nameOrEmpty c.name)))
      ∧ (selectMatched cs checks patterns).Sublist checks := by
  constructor
  · rw [selectMatched_eq_filter]
    exact List.filter_congr fun c _ => includedB_eq_decide cs patterns (nameOrEmpty c.name)
  · rw [selectMatched_eq_filter]
    exact List.filter_sublist checks

/-- The checks of the spec's first example scenario. -/
def checksA : List Check :=
  [⟨some 1, .str "api-prod"⟩, ⟨some 2, .str "web-staging"⟩, ⟨some 3, .str "API-internal"⟩]

/-- Witness for C1 on the spec's first example scenario. -/
theorem matcher_filters_by_substring_witness :
    selectMatched false checksA ["api"] =
        checksA.filter (fun c => decide (specMatchesName false ["api"] (nameOrEmpty c.name)))
      ∧ (selectMatched false checksA ["api"]).Sublist checksA :=
  matcher_filters_by_substring checksA ["api"] false (by decide)

/-- Claim C2: with the dry-run flag set, the bulk write is never invoked —
no PUT request appears in the run's trace, whatever the fetch returned and
however many checks matched. -/
theorem dry_run_never_writes (args : Args) (envVal : Option String) (fresp : FetchResp)
    (wresp : WriteResp) (payload : List (String × String)) (h : args.dryRun = true) :
    NetCall.putChecks payload ∉ (runMain args envVal fresp wresp).2 := by
  unfold runMain
  split_ifs <;> simp_all

/-- Arguments of a case-insensitive dry run over pattern `api`. -/
def argsDry : Args := ⟨.pause, ["api"], "PINGDOM_API_TOKEN", true, false⟩

/-- Arguments of a case-insensitive live run over pattern `api`. -/
def argsLive : Args := ⟨.pause, ["api"], "PINGDOM_API_TOKEN", false, false⟩

/-- A 200 fetch returning the example checks. -/
def fetchOkA : FetchResp := ⟨200, "OK", checksA, ""⟩

/-- A 200 write response. -/
def writeOk : WriteResp := ⟨200, "OK", ""⟩

/-- Witness for C2: a dry run over the example checks issues no PUT. -/
theorem dry_run_never_writes_witness :
    NetCall.putChecks [("paused", "true")] ∉
      (runMain argsDry (some "tok") fetchOkA writeOk).2 :=
  dry_run_never_writes argsDry (some "tok") fetchOkA writeOk [("paused", "true")] rfl

/-- Claim C8: with zero patterns the run terminates on the invalid-argument
diagnostic with an empty network trace — neither the fetch nor the write is
attempted. -/
theorem empty_patterns_no_network (args : Args) (envVal : Option String)
    (fresp : FetchResp) (wresp : WriteResp) (h : args.patterns = []) :
    runMain args envVal fresp wresp = (.errExit noPatternsMsg, []) := by
  unfold runMain
  rw [if_pos h]

/-- Witness for C8: a run given no patterns exits before any network call. -/
theorem empty_patterns_no_network_witness :
    runMain ⟨.pause, [], "PINGDOM_API_TOKEN", false, false⟩ (some "tok") fetchOkA writeOk =
      (.errExit noPatternsMsg, []) :=
  empty_patterns_no_network ⟨.pause, [], "PINGDOM_API_TOKEN", false, false⟩
    (some "tok") fetchOkA writeOk rfl

/-- Claim C7: when the filter yields no match, the run terminates on the
no-matches diagnostic after the fetch alone, and no PUT appears in the
trace. -/
theorem no_matches_short_circuits (args : Args) (envVal : Option String)
    (fresp : FetchResp) (wresp : WriteResp) (payload : List (String × String))
    (hp : args.patterns ≠ []) (ht : envVal.getD "" ≠ "") (hf : fresp.status < 400)
    (hm : runMatched args fresp = []) :
    runMain args envVal fresp wresp = (.errExit noMatchesMsg, [NetCall.getChecks])
      ∧ NetCall.putChecks payload ∉ (runMain args envVal fresp wresp).2 := by
  have hrun : runMain args envVal fresp wresp = (.errExit noMatchesMsg, [NetCall.getChecks]) := by
    unfold runMain
    rw [if_neg hp, if_neg ht, if_neg (by omega), if_neg (by omega), if_pos hm]
  exact ⟨hrun, by rw [hrun]; simp⟩

/-- Witness for C7: the pattern `zzz` matches none of the example checks and
the run stops at the no-matches diagnostic. -/
theorem no_matches_short_circuits_witness :
    runMain ⟨.pause, ["zzz"], "PINGDOM_API_TOKEN", false, false⟩ (some "tok") fetchOkA writeOk =
        (.errExit noMatchesMsg, [NetCall.getChecks])
      ∧ NetCall.putChecks [("paused", "true")] ∉
          (runMain ⟨.pause, ["zzz"], "PINGDOM_API_TOKEN", false, false⟩
            (some "tok") fetchOkA writeOk).2 :=
  no_matches_short_circuits ⟨.pause, ["zzz"], "PINGDOM_API_TOKEN", false, false⟩
    (some "tok") fetchOkA writeOk [("paused", "true")]
    (by decide) (by decide) (by decide) (by decide)

/-- Claim C6: a 401 on the fetch ends the run at the authentication
diagnostic with only the GET in the trace (no filtering outcome, no write),
and a 401 on the write ends a live run at the same diagnostic with no
success report. -/
theorem auth_error_terminates (args : Args) (envVal : Option String)
    (f401 fok : FetchResp) (wAny w401 : WriteResp)
    (hp : args.patterns ≠ []) (ht : envVal.getD "" ≠ "")
    (h401 : f401.status = 401)
    (hfok : fok.status < 400) (hm : runMatched args fok ≠ []) (hd : args.dryRun = false)
    (hw : w401.status = 401) :
    runMain args envVal f401 wAny = (.errExit unauthorizedMsg, [NetCall.getChecks])
      ∧ runMain args envVal fok w401 =
        (.errExit unauthorizedMsg,
         [NetCall.getChecks, NetCall.putChecks (runPayload args fok)]) := by
  constructor
  · unfold runMain
    rw [if_neg hp, if_neg ht, if_pos h401]
  · unfold runMain
    rw [if_neg hp, if_neg ht, if_neg (by omega), if_neg (by omega), if_neg hm,
      if_neg (by simp [hd]), if_pos hw]

/-- A 401 fetch response. -/
def fetch401 : FetchResp := ⟨401, "Unauthorized", [], ""⟩

/-- A 401 write response. -/
def write401 : WriteResp := ⟨401, "Unauthorized", ""⟩

/-- Witness for C6: both 401 scenarios, on the example checks. -/
theorem auth_error_terminates_witness :
    runMain argsLive (some "tok") fetch401 writeOk =
        (.errExit unauthorizedMsg, [NetCall.getChecks])
      ∧ runMain argsLive (some "tok") fetchOkA write401 =
        (.errExit unauthorizedMsg,
         [NetCall.getChecks, NetCall.putChecks (runPayload argsLive fetchOkA)]) :=
  auth_error_terminates argsLive (some "tok") fetch401 fetchOkA writeOk write401
    (by decide) (by decide) rfl (by decide) (by decide) rfl rfl

/-!
## String lemmas: joins are non-empty, chunks sit inside appends
-/

theorem toDigitsCore_length_lt (b : Nat) :
    ∀ (fuel n : Nat) (ds : List Char),
      ds.length < (Nat.toDigitsCore b (fuel + 1) n ds).length := by
  intro fuel
  induction fuel with
  | zero =>
    intro n ds
    simp only [Nat.toDigitsCore]
    split <;> simp
  | succ f ih =>
    intro n ds
    simp only [Nat.toDigitsCore]
    split
    · simp
    · exact Nat.lt_trans (by simp) (ih _ _)

theorem natRepr_ne_nil (n : Nat) : (Nat.repr n).data ≠ [] := by
  have h := toDigitsCore_length_lt 10 n n []
  simp only [Nat.repr, Nat.toDigits]
  intro hc
  have hdata : ({ data := Nat.toDigitsCore 10 (n + 1) n [] } : String).data = [] := hc
  have hlen : (Nat.toDigitsCore 10 (n + 1) n []).length = 0 := by
    simpa using congrArg List.length hdata
  simp only [List.length] at h
  omega

theorem intToString_ne_nil (i : Int) : (toString i).data ≠ [] := by
  cases i with
  | ofNat m => exact natRepr_ne_nil m
  | negSucc m =>
    show ("-" ++ toString (m + 1)).data ≠ []
    simp [String.data_append]

/-- What a separator-join appends after its first element. -/
def joinRest (s : String) : List String → String
  | [] => ""
  | a :: as => s ++ a ++ joinRest s as

theorem intercalate_go_eq (s : String) (as : List String) :
    ∀ acc : String, String.intercalate.go acc s as = acc ++ joinRest s as := by
  induction as with
  | nil => intro acc; simp [String.intercalate.go, joinRest]
  | cons a as ih =>
    intro acc
    rw [String.intercalate.go, joinRest, ih]
    simp [String.append_assoc]

theorem specCommaJoin_cons (rest : List Int) :
    ∀ i : Int, specCommaJoin (i :: rest) = toString i ++ joinRest "," (rest.map toString) := by
  induction rest with
  | nil => intro i; simp [specCommaJoin, joinRest]
  | cons j rs ih =>
    intro i
    simp only [specCommaJoin, List.map_cons, joinRest]
    rw [ih j]
    simp [String.append_assoc]

theorem joinComma_eq_spec (ids : List Int) : joinComma ids = specCommaJoin ids := by
  cases ids with
  | nil => rfl
  | cons i rest =>
    rw [joinComma, List.map_cons, String.intercalate, intercalate_go_eq, specCommaJoin_cons]

theorem specCommaJoin_ne_nil (i : Int) (rest : List Int) :
    (specCommaJoin (i :: rest)).data ≠ [] := by
  rw [specCommaJoin_cons]
  simp only [String.data_append, ne_eq, List.append_eq_nil, not_and]
  intro h
  exact absurd h (intToString_ne_nil i)

theorem chunk_self_append {α : Type} (l w : List α) : l <:+: l ++ w :=
  ⟨[], w, by simp⟩

theorem chunk_append_self {α : Type} (u l : List α) : l <:+: u ++ l :=
  ⟨u, [], by simp⟩

theorem chunk_grow_left {α : Type} {l₁ l₂ : List α} (h : l₁ <:+: l₂) (u : List α) :
    l₁ <:+: u ++ l₂ := by
  obtain ⟨s, t, rfl⟩ := h
  exact ⟨u ++ s, t, by simp⟩

theorem chunk_nil_iff (l : List Char) : l <:+: ([] : List Char) ↔ l = [] := by
  constructor
  · rintro ⟨s, t, he⟩
    rcases List.append_eq_nil.mp he with ⟨h1, _⟩
    exact (List.append_eq_nil.mp h1).2
  · rintro rfl
    exact ⟨[], [], rfl⟩

/-- Claim C4: for a non-empty id list the write body is exactly the field
`paused` — the string `true` or `false` for the desired state — followed by
the field `checkids`, the comma-joined decimal encoding of the ids in match
order, duplicates preserved. -/
theorem bulk_request_payload (ids : List Int) (pause : Bool) (h : ids ≠ []) :
    buildPayload ids pause =
      [("paused", if pause then "true" else "false"),
       ("checkids", specCommaJoin ids)] := by
  unfold buildPayload
  rw [if_neg h, joinComma_eq_spec]
  rfl

/-- Witness for C4, on an id list with a duplicate. -/
theorem bulk_request_payload_witness :
    buildPayload [3, 1, 3] true =
      [("paused", if true then "true" else "false"),
       ("checkids", specCommaJoin [3, 1, 3])] :=
  bulk_request_payload [3, 1, 3] true (by decide)

/-- A fetched check whose JSON object carries a name but no `"id"` key. -/
def checkNoId : Check := ⟨none, .str "api-orphan"⟩

/-- A 200 fetch whose single check has no `"id"` key. -/
def fetchNoId : FetchResp := ⟨200, "OK", [checkNoId], ""⟩

/-- Counterexample to claim C3 as stated: a run whose single matched check
lacks an `"id"` key reaches the bulk write with an empty id list — the PUT
is issued, and its body omits the `checkids` field entirely. -/
theorem write_reached_with_empty_ids :
    (runMain argsLive (some "tok") fetchNoId writeOk).2 =
        [NetCall.getChecks, NetCall.putChecks [("paused", "true")]]
      ∧ runIds argsLive fetchNoId = []
      ∧ lookupField "checkids" [("paused", "true")] = none := by
  decide

/-- Claim C3 (amended): whenever a run reaches the bulk write, the match
result was non-empty and the trace records exactly one PUT carrying the
built body; that body's `checkids` field is present — and non-empty — iff
the id list is non-empty, which holds iff some matched check carries an
`"id"` key; a non-empty match whose checks all lack ids still reaches the
write, with `checkids` omitted. -/
theorem write_payload_checkids (args : Args) (envVal : Option String)
    (fresp : FetchResp) (wresp : WriteResp)
    (hp : args.patterns ≠ []) (ht : envVal.getD "" ≠ "") (hf : fresp.status < 400)
    (hm : runMatched args fresp ≠ []) (hd : args.dryRun = false) :
    (runMain args envVal fresp wresp).2 =
        [NetCall.getChecks, NetCall.putChecks (runPayload args fresp)]
      ∧ lookupField "checkids" (runPayload args fresp) =
          (if runIds args fresp = [] then none else some (joinComma (runIds args fresp)))
      ∧ (if runIds args fresp = [] then True
          else (joinComma (runIds args fresp)).data ≠ []) := by
  refine ⟨?_, ?_, ?_⟩
  · unfold runMain
    rw [if_neg hp, if_neg ht, if_neg (by omega), if_neg (by omega), if_neg hm,
      if_neg (by simp [hd])]
    split_ifs <;> rfl
  · by_cases hid : runIds args fresp = []
    · rw [if_pos hid]
      unfold runPayload buildPayload
      rw [if_pos hid]
      simp [lookupField]
    · rw [if_neg hid]
      unfold runPayload buildPayload
      rw [if_neg hid]
      simp [lookupField]
  · by_cases hid : runIds args fresp = []
    · rw [if_pos hid]; trivial
    · rw [if_neg hid, joinComma_eq_spec]
      obtain ⟨i, rest, hrw⟩ : ∃ i rest, runIds args fresp = i :: rest := by
        rcases h : runIds args fresp with _ | ⟨i, rest⟩
        · exact absurd h hid
        · exact ⟨i, rest, rfl⟩
      rw [hrw]
      exact specCommaJoin_ne_nil i rest

/-- Witness for C3 (amended): the live run over the example checks. -/
theorem write_payload_checkids_witness :
    (runMain argsLive (some "tok") fetchOkA writeOk).2 =
        [NetCall.getChecks, NetCall.putChecks (runPayload argsLive fetchOkA)]
      ∧ lookupField "checkids" (runPayload argsLive fetchOkA) =
          (if runIds argsLive fetchOkA = []
            then none else some (joinComma (runIds argsLive fetchOkA)))
      ∧ (if runIds argsLive fetchOkA = [] then True
          else (joinComma (runIds argsLive fetchOkA)).data ≠ []) :=
  write_payload_checkids argsLive (some "tok") fetchOkA writeOk
    (by decide) (by decide) (by decide) (by decide) rfl

/-- A 500 fetch response with a non-empty body. -/
def fetch500 : FetchResp := ⟨500, "Internal Server Error", [], "boom"⟩

set_option maxRecDepth 4096 in
/-- Counterexample to claim C5 as stated: on a non-2xx, non-401 fetch
response the run does terminate non-zero, but its diagnostic — the message
of the uncaught error `raise_for_status` raises — does not include the
response body text. -/
theorem fetch_error_diag_lacks_body :
    (runMain argsLive (some "tok") fetch500 writeOk).1 =
        Outcome.errExit (httpErrorMsg 500 "Internal Server Error" checksUrl)
      ∧ ¬ ("boom".data <:+: (httpErrorMsg 500 "Internal Server Error" checksUrl).data) := by
  decide

theorem status_in_httpErrorMsg (status : Nat) (reason url : String) :
    (toString status).data <:+: (httpErrorMsg status reason url).data := by
  unfold httpErrorMsg
  simp only [String.data_append, List.append_assoc]
  exact chunk_self_append _ _

theorem status_in_writeErrDiagnostic (status : Nat) (body reason url : String) :
    (toString status).data <:+: (writeErrDiagnostic status body reason url).data := by
  unfold writeErrDiagnostic
  simp only [String.data_append, List.append_assoc]
  exact chunk_grow_left (chunk_self_append _ _) _

theorem body_in_writeErrDiagnostic (status : Nat) (body reason url : String) :
    (body.trim).data <:+: (writeErrDiagnostic status body reason url).data := by
  unfold writeErrDiagnostic
  by_cases h : body.trim = ""
  · rw [h]
    show ([] : List Char) <:+: _
    exact ⟨[], _, rfl⟩
  · rw [if_neg h]
    simp only [String.data_append, List.append_assoc]
    exact chunk_grow_left (chunk_grow_left (chunk_append_self _ _) _) _

/-- Claim C5 (amended): an error response (status 400-599) other than 401
on the fetch ends the run non-zero with the uncaught-error diagnostic,
which includes the status code but not necessarily the body; an error
response other than 401/404 on the write ends the run non-zero with a
diagnostic that includes both the status code and the stripped response
body text. -/
theorem service_error_diagnostics (args : Args) (envVal : Option String)
    (fErr fok : FetchResp) (wAny wErr : WriteResp)
    (hp : args.patterns ≠ []) (ht : envVal.getD "" ≠ "")
    (hfe : 400 ≤ fErr.status ∧ fErr.status < 600) (hfe401 : fErr.status ≠ 401)
    (hfok : fok.status < 400) (hm : runMatched args fok ≠ []) (hd : args.dryRun = false)
    (hwe : 400 ≤ wErr.status ∧ wErr.status < 600) (hw401 : wErr.status ≠ 401)
    (hw404 : wErr.status ≠ 404) :
    (runMain args envVal fErr wAny).1 =
        Outcome.errExit (httpErrorMsg fErr.status fErr.reason checksUrl)
      ∧ (toString fErr.status).data <:+:
          (httpErrorMsg fErr.status fErr.reason checksUrl).data
      ∧ (runMain args envVal fok wErr).1 =
        Outcome.errExit (writeErrDiagnostic wErr.status wErr.body wErr.reason checksUrl)
      ∧ (toString wErr.status).data <:+:
          (writeErrDiagnostic wErr.status wErr.body wErr.reason checksUrl).data
      ∧ (wErr.body.trim).data <:+:
          (writeErrDiagnostic wErr.status wErr.body wErr.reason checksUrl).data := by
  refine ⟨?_, status_in_httpErrorMsg _ _ _, ?_, status_in_writeErrDiagnostic _ _ _ _,
    body_in_writeErrDiagnostic _ _ _ _⟩
  · unfold runMain
    rw [if_neg hp, if_neg ht, if_neg hfe401, if_pos hfe]
  · unfold runMain
    rw [if_neg hp, if_neg ht, if_neg (by omega), if_neg (by omega), if_neg hm,
      if_neg (by simp [hd]), if_neg hw401, if_neg hw404, if_pos hwe]

/-- A 503 write response whose body strips to a non-empty string. -/
def write503 : WriteResp := ⟨503, "Service Unavailable", " upstream down \n"⟩

/-- Witness for C5 (amended): a 500 fetch scenario and a 503 write
scenario over the example checks. -/
theorem service_error_diagnostics_witness :
    (runMain argsLive (some "tok") fetch500 writeOk).1 =
        Outcome.errExit (httpErrorMsg fetch500.status fetch500.reason checksUrl)
      ∧ (toString fetch500.status).data <:+:
          (httpErrorMsg fetch500.status fetch500.reason checksUrl).data
      ∧ (runMain argsLive (some "tok") fetchOkA write503).1 =
        Outcome.errExit
          (writeErrDiagnostic write503.status write503.body write503.reason checksUrl)
      ∧ (toString write503.status).data <:+:
          (writeErrDiagnostic write503.status write503.body write503.reason checksUrl).data
      ∧ (write503.body.trim).data <:+:
          (writeErrDiagnostic write503.status write503.body write503.reason checksUrl).data :=
  service_error_diagnostics argsLive (some "tok") fetch500 fetchOkA writeOk write503
    (by decide) (by decide) (by decide) (by decide) (by decide) (by decide) rfl
    (by decide) (by decide) (by decide)

theorem matchedIds_eq_spec (matched : List Check) :
    matchedIds matched = specSentIds matched := by
  induction matched with
  | nil => rfl
  | cons c t ih =>
    cases hc : c.id with
    | none =>
      simpa [matchedIds, specSentIds, List.filterMap_cons, List.filter_cons, hc]
        using ih
    | some i =>
      simpa [matchedIds, specSentIds, List.filterMap_cons, List.filter_cons, hc]
        using ih

theorem matchedIds_all_some (l : List Check) (h : ∀ c ∈ l, c.id.isSome) :
    matchedIds l = l.map fun c => c.id.getD 0 := by
  induction l with
  | nil => rfl
  | cons c t ih =>
    obtain ⟨i, hi⟩ := Option.isSome_iff_exists.mp (h c (by simp))
    have ht : matchedIds t = t.map fun c => c.id.getD 0 :=
      ih fun c hc => h c (List.mem_cons_of_mem _ hc)
    simp [matchedIds, List.filterMap_cons, hi] at ht ⊢
    exact ht

/-- Claim C9: the ids sent to the bulk write are exactly the ids of those
matched checks that possess an `"id"` key, in match order — matched checks
without one are silently dropped from the mutation — and when every matched
check has an `"id"` key, the report's positional zip pairs each printed
name with the id of the same check. -/
theorem sent_ids_and_report_pairs (matched aligned : List Check)
    (h : ∀ c ∈ aligned, c.id.isSome) :
    matchedIds matched = specSentIds matched
      ∧ (matchedNames aligned).zip (matchedIds aligned) =
          aligned.map fun c => (displayName c, c.id.getD 0) := by
  refine ⟨matchedIds_eq_spec matched, ?_⟩
  rw [matchedIds_all_some aligned h]
  unfold matchedNames
  exact List.zip_map' displayName (fun c => c.id.getD 0) aligned

/-- A matched list whose middle check lacks an `"id"` key. -/
def mixedMatched : List Check :=
  [⟨some 1, .str "api-a"⟩, ⟨none, .str "api-b"⟩, ⟨some 3, .str "api-c"⟩]

/-- Witness for C9: a mixed matched list for the id projection, the example
checks for the aligned zip. -/
theorem sent_ids_and_report_pairs_witness :
    matchedIds mixedMatched = specSentIds mixedMatched
      ∧ (matchedNames checksA).zip (matchedIds checksA) =
          checksA.map fun c => (displayName c, c.id.getD 0) :=
  sent_ids_and_report_pairs mixedMatched checksA (by decide)

theorem substrB_empty_hay (p : String) : substrB p "" = true ↔ p = "" := by
  simp only [substrB, decide_eq_true_eq]
  constructor
  · intro hinf
    have hpd : p.data = [] := (chunk_nil_iff p.data).mp hinf
    exact String.ext hpd
  · rintro rfl
    exact ⟨[], [], rfl⟩

theorem pyLower_empty_iff (q : String) : pyLower q = "" ↔ q = "" := by
  constructor
  · intro h
    have hd : (pyLower q).data = [] := by rw [h]
    have : q.data = [] := List.map_eq_nil_iff.mp hd
    exact String.ext this
  · rintro rfl
    rfl

theorem includedB_empty_name (cs : Bool) (patterns : List String) :
    includedB cs patterns "" = true ↔ "" ∈ patterns := by
  cases cs with
  | true =>
    show (patterns.any fun p => substrB p "") = true ↔ "" ∈ patterns
    rw [List.any_eq_true]
    constructor
    · rintro ⟨p, hp, hs⟩
      rw [substrB_empty_hay] at hs
      rwa [hs] at hp
    · intro hp
      exact ⟨"", hp, (substrB_empty_hay "").mpr rfl⟩
  | false =>
    show ((patterns.map pyLower).any fun p => substrB p (pyLower "")) = true ↔ "" ∈ patterns
    rw [List.any_map, List.any_eq_true]
    constructor
    · rintro ⟨q, hq, hs⟩
      simp only [Function.comp] at hs
      have hlow : pyLower "" = "" := rfl
      rw [hlow, substrB_empty_hay, pyLower_empty_iff] at hs
      rwa [hs] at hq
    · intro hp
      refine ⟨"", hp, ?_⟩
      simp only [Function.comp]
      have hlow : pyLower "" = "" := rfl
      rw [hlow, substrB_empty_hay]

/-- Claim C10: a fetched check whose `"name"` field is absent or `null` is
matched as if its name were the empty string: it lands in the match result
iff it was fetched and some supplied pattern is the empty string, in both
case modes. -/
theorem missing_name_matches_iff_empty_pattern (cs : Bool) (checks : List Check)
    (patterns : List String) (c : Check)
    (hn : c.name = JsonName.absent ∨ c.name = JsonName.null) :
    c ∈ selectMatched cs checks patterns ↔ c ∈ checks ∧ "" ∈ patterns := by
  have hne : nameOrEmpty c.name = "" := by
    rcases hn with h | h <;> rw [h] <;> rfl
  rw [selectMatched_eq_filter, List.mem_filter, hne, includedB_empty_name]

/-- A check with an explicit `null` name. -/
def checkNullName : Check := ⟨some 9, .null⟩

/-- Witness for C10: a null-named check matches exactly because one of the
patterns is empty. -/
theorem missing_name_matches_iff_empty_pattern_witness :
    checkNullName ∈ selectMatched false [checkNullName] ["", "api"] ↔
      checkNullName ∈ [checkNullName] ∧ "" ∈ ["", "api"] :=
  missing_name_matches_iff_empty_pattern false [checkNullName] ["", "api"]
    checkNullName (Or.inr rfl)

end PingdomPause
